import Mathlib

/-!
Verification of the `src/wrapper/wrapper.h` declaration surface of the
php-rs repository, together with a model (taken from the specification)
of the Zend string primitives that the declared functions wrap.

The header is embedded as a list of C header items (includes and function
declarations) over a small C type grammar; the embedding is transcribed
directly from `src/src/wrapper/wrapper.h`.  The behavior of the three
declared functions is not present under the given source (only their
prototypes are), so their semantics and the Zend primitives they forward
to are modelled from the specification text and marked as such.
-/

/-- A small grammar of the C types appearing in `wrapper.h`. -/
inductive CType where
  | void : CType
  | bool : CType
  | char : CType
  | size_t : CType
  | zend_string : CType
  | ptr : CType → CType
  | const : CType → CType
  deriving DecidableEq, Repr

/-- A minimal C statement grammar, enough to record a function body when a
header carries one (a definition rather than a prototype). -/
inductive CStmt where
  | callStmt : String → List String → CStmt
  | retCall : String → List String → CStmt
  deriving DecidableEq, Repr

/-- A C function declaration: name, named parameters, return type, and an
optional body (`none` for a bare prototype). -/
structure FunDecl where
  name : String
  params : List (String × CType)
  ret : CType
  body : Option CStmt
  deriving DecidableEq, Repr

/-- An item of a C header file: an `#include` directive, a function
declaration, or a type definition. -/
inductive HeaderItem where
  | incl : String → HeaderItem
  | declFun : FunDecl → HeaderItem
  | declType : String → HeaderItem
  deriving DecidableEq, Repr

/-- Declaration of `php_rs_zend_string_init`, transcribed from line 5 of
`src/wrapper/wrapper.h`:
`zend_string *php_rs_zend_string_init(const char *str, size_t len, bool persistent);`. -/
def initDecl : FunDecl :=
  { name := "php_rs_zend_string_init"
    params := [("str", CType.ptr (CType.const CType.char)),
               ("len", CType.size_t),
               ("persistent", CType.bool)]
    ret := CType.ptr CType.zend_string
    body := none }

/-- Declaration of `php_rs_zend_string_release`, transcribed from line 6 of
`src/wrapper/wrapper.h`:
`void php_rs_zend_string_release(zend_string *zs);`. -/
def releaseDecl : FunDecl :=
  { name := "php_rs_zend_string_release"
    params := [("zs", CType.ptr CType.zend_string)]
    ret := CType.void
    body := none }

/-- Declaration of `php_rs_php_build_id`, transcribed from line 7 of
`src/wrapper/wrapper.h`:
`const char *php_rs_php_build_id();`. -/
def buildIdDecl : FunDecl :=
  { name := "php_rs_php_build_id"
    params := []
    ret := CType.ptr (CType.const CType.char)
    body := none }

/-- The whole of `src/wrapper/wrapper.h`, item by item: three `#include`
directives followed by three function prototypes. -/
def wrapper_h : List HeaderItem :=
  [HeaderItem.incl "php.h",
   HeaderItem.incl "ext/standard/info.h",
   HeaderItem.incl "zend_exceptions.h",
   HeaderItem.declFun initDecl,
   HeaderItem.declFun releaseDecl,
   HeaderItem.declFun buildIdDecl]

/-- Header files defined by this repository itself (the repository's source
tree contains exactly `src/wrapper/wrapper.h`). -/
def repoHeaders : List String := ["wrapper.h"]

/-- The function declarations of a header, in order. -/
def funDecls (h : List HeaderItem) : List FunDecl :=
  h.filterMap fun item =>
    match item with
    | HeaderItem.declFun d => some d
    | _ => none

/-- The names of the functions a header declares, in order. -/
def declaredNames (h : List HeaderItem) : List String :=
  (funDecls h).map FunDecl.name

/-- The paths mentioned by the `#include` directives of a header, in order. -/
def includesOf (h : List HeaderItem) : List String :=
  h.filterMap fun item =>
    match item with
    | HeaderItem.incl p => some p
    | _ => none

/-- Whether every item of a header is either an `#include` directive or a
function declaration (no type definitions, no other symbols). -/
def onlyIncludesAndFunDecls (h : List HeaderItem) : Bool :=
  h.all fun item =>
    match item with
    | HeaderItem.incl _ => true
    | HeaderItem.declFun _ => true
    | HeaderItem.declType _ => false

/-- Whether every function declaration of a header is a bare prototype,
carrying no body. -/
def allPrototypes (h : List HeaderItem) : Bool :=
  (funDecls h).all fun d => d.body.isNone

/-- The externally visible surface of a header: the calling convention
(name, parameter types, return type) of each declared function. -/
def surface (h : List HeaderItem) : List (String × List CType × CType) :=
  (funDecls h).map fun d => (d.name, d.params.map Prod.snd, d.ret)

/-- Modelled from the spec: `zend_string`, PHP/Zend's reference-counted,
length-prefixed native string representation, with a flag recording whether
it was allocated persistently (outside the per-request arena).  The type is
owned by the host runtime and is absent from the given source. -/
structure ZendString where
  bytes : List Nat
  refcount : Nat
  persistent : Bool
  deriving DecidableEq, Repr

/-- Modelled from the spec: the host runtime's ambient build information;
its build identifier string identifies the compiled Zend engine's
ABI/version.  The host runtime is absent from the given source. -/
structure Host where
  buildId : String
  deriving DecidableEq, Repr

/-- Modelled from the spec: Zend's string allocator.  It constructs a host
string value from a raw byte buffer and an explicit length — exactly the
first `len` bytes of the buffer, with no dependence on any terminator —
with one reference held, allocated persistently when requested.  The
allocator's code is absent from the given source. -/
def zend_string_init (buf : Nat → Nat) (len : Nat) (persistent : Bool) : ZendString :=
  { bytes := (List.range len).map buf
    refcount := 1
    persistent := persistent }

/-- Modelled from the spec: Zend's reference release.  It releases exactly
one reference to a string, destroying the string (returning `none`) only
when no references remain afterwards.  The primitive's code is absent from
the given source. -/
def zend_string_release_prim (zs : ZendString) : Option ZendString :=
  if zs.refcount ≤ 1 then none
  else some { zs with refcount := zs.refcount - 1 }

/-- Modelled from the spec: Zend's build-identifier reporter, returning the
host runtime's build identifier string.  The reporter's code is absent from
the given source. -/
def zend_php_build_id (h : Host) : String := h.buildId

/-- Modelled from the spec: the implementation behind the prototype
`php_rs_zend_string_init`, a pass-through wrapper over Zend's string
allocator; the implementation file is absent from the given source. -/
def php_rs_zend_string_init (buf : Nat → Nat) (len : Nat) (persistent : Bool) : ZendString :=
  zend_string_init buf len persistent

/-- Modelled from the spec: the implementation behind the prototype
`php_rs_zend_string_release`, a pass-through wrapper over Zend's reference
release; the implementation file is absent from the given source. -/
def php_rs_zend_string_release (zs : ZendString) : Option ZendString :=
  zend_string_release_prim zs

/-- Modelled from the spec: the implementation behind the prototype
`php_rs_php_build_id`, a pass-through wrapper over Zend's build-identifier
reporter; the implementation file is absent from the given source. -/
def php_rs_php_build_id (h : Host) : String := zend_php_build_id h

/-- C1: each of the three declared functions is a pass-through wrapper over
the corresponding Zend host-runtime primitive — `php_rs_zend_string_init`
agrees with Zend's string allocator on every buffer, length and
persistence flag, `php_rs_zend_string_release` agrees with Zend's
reference release on every string, and `php_rs_php_build_id` agrees with
Zend's build-identifier reporter — with no behavior added. -/
theorem c1_passthrough_wrappers :
    (∀ buf len persistent,
      php_rs_zend_string_init buf len persistent = zend_string_init buf len persistent) ∧
    (∀ zs, php_rs_zend_string_release zs = zend_string_release_prim zs) ∧
    (∀ h, php_rs_php_build_id h = zend_php_build_id h) :=
  ⟨fun _ _ _ => rfl, fun _ => rfl, fun _ => rfl⟩

/-- C2: `php_rs_zend_string_init` is declared in `wrapper.h` with signature
`(const char *, size_t, bool)` returning `zend_string *`, and it constructs
a host string whose bytes are exactly the first `len` bytes of the buffer,
with one reference held and persistence as requested by the boolean
parameter. -/
theorem c2_init_signature_and_construction :
    (funDecls wrapper_h).head? = some initDecl ∧
    initDecl.params.map Prod.snd =
      [CType.ptr (CType.const CType.char), CType.size_t, CType.bool] ∧
    initDecl.ret = CType.ptr CType.zend_string ∧
    (∀ buf len persistent,
      php_rs_zend_string_init buf len persistent =
        { bytes := (List.range len).map buf, refcount := 1, persistent := persistent }) :=
  ⟨rfl, rfl, rfl, fun _ _ _ => rfl⟩

/-- C3: `php_rs_zend_string_release` is declared taking a `zend_string *`
and returning nothing, and on every previously constructed string (one
holding at least one reference) it releases exactly one reference:
the refcount drops by one, and the string is destroyed exactly when no
references remain afterwards. -/
theorem c3_release_one_reference (zs : ZendString) (h : 1 ≤ zs.refcount) :
    releaseDecl.params.map Prod.snd = [CType.ptr CType.zend_string] ∧
    releaseDecl.ret = CType.void ∧
    php_rs_zend_string_release zs =
      (if zs.refcount = 1 then none
       else some { bytes := zs.bytes, refcount := zs.refcount - 1,
                   persistent := zs.persistent }) := by
  refine ⟨rfl, rfl, ?_⟩
  unfold php_rs_zend_string_release zend_string_release_prim
  rcases Nat.lt_or_ge 1 zs.refcount with h1 | h1
  · rw [if_neg (Nat.not_le.mpr h1), if_neg (by omega : ¬zs.refcount = 1)]
  · have he : zs.refcount = 1 := Nat.le_antisymm h1 h
    rw [if_pos (le_of_eq he), if_pos he]

/-- Witness for C3 at a concrete string holding two references: releasing
one leaves one reference and does not destroy the string. -/
theorem c3_release_one_reference_witness :
    1 ≤ (ZendString.mk [104, 105] 2 false).refcount ∧
    (releaseDecl.params.map Prod.snd = [CType.ptr CType.zend_string] ∧
     releaseDecl.ret = CType.void ∧
     php_rs_zend_string_release (ZendString.mk [104, 105] 2 false) =
       (if (ZendString.mk [104, 105] 2 false).refcount = 1 then none
        else some { bytes := (ZendString.mk [104, 105] 2 false).bytes,
                    refcount := (ZendString.mk [104, 105] 2 false).refcount - 1,
                    persistent := (ZendString.mk [104, 105] 2 false).persistent })) :=
  ⟨by decide, c3_release_one_reference (ZendString.mk [104, 105] 2 false) (by decide)⟩

/-- C4: `php_rs_php_build_id` is declared with no parameters returning a
`const char *`, and it returns the host runtime's build-identifier
string. -/
theorem c4_build_id_reporter :
    buildIdDecl.params = [] ∧
    buildIdDecl.ret = CType.ptr (CType.const CType.char) ∧
    (∀ h : Host, php_rs_php_build_id h = h.buildId) :=
  ⟨rfl, rfl, fun _ => rfl⟩

/-- C5: `wrapper.h` declares exactly three functions — the string
allocator wrapper, the reference-release wrapper, and the build-identifier
reporter, in that order — and declares no other symbols: every remaining
item is an `#include` directive. -/
theorem c5_exactly_three_declarations :
    declaredNames wrapper_h =
      ["php_rs_zend_string_init", "php_rs_zend_string_release", "php_rs_php_build_id"] ∧
    funDecls wrapper_h = [initDecl, releaseDecl, buildIdDecl] ∧
    onlyIncludesAndFunDecls wrapper_h = true :=
  ⟨rfl, rfl, rfl⟩

/-- C6: `wrapper.h` depends on exactly the three host headers `php.h`,
`ext/standard/info.h` and `zend_exceptions.h`, none of which is a header
this repository defines, and its externally visible surface is exactly the
C calling convention of the three declared functions. -/
theorem c6_three_host_headers :
    includesOf wrapper_h = ["php.h", "ext/standard/info.h", "zend_exceptions.h"] ∧
    ((includesOf wrapper_h).all fun p => decide (p ∉ repoHeaders)) = true ∧
    surface wrapper_h =
      [("php_rs_zend_string_init",
        [CType.ptr (CType.const CType.char), CType.size_t, CType.bool],
        CType.ptr CType.zend_string),
       ("php_rs_zend_string_release", [CType.ptr CType.zend_string], CType.void),
       ("php_rs_php_build_id", [], CType.ptr (CType.const CType.char))] :=
  ⟨rfl, by decide, rfl⟩

/-- C7: the header contains only opaque signatures — every declared
function is a bare prototype with no body, and no item of the header is a
type definition; the header provides no control or data flow of its
own. -/
theorem c7_prototypes_only :
    allPrototypes wrapper_h = true ∧
    onlyIncludesAndFunDecls wrapper_h = true :=
  ⟨rfl, rfl⟩

/-- C8: the header specifies no error behavior: every declaration is a
bodiless prototype, so nothing at the header level constrains what
`php_rs_zend_string_init` does on allocation failure — an implementation
that always produces a string and one that fails (returns a null pointer,
modelled as `none`) on some input are both compatible with the declared
signature. -/
theorem c8_no_error_behavior_specified :
    allPrototypes wrapper_h = true ∧
    ∃ f g : (Nat → Nat) → Nat → Bool → Option ZendString,
      (∀ buf len persistent, f buf len persistent = some (zend_string_init buf len persistent)) ∧
      (∃ buf len persistent, g buf len persistent = none) :=
  ⟨rfl,
   (fun buf len persistent => some (zend_string_init buf len persistent)),
   (fun _ _ _ => none),
   fun _ _ _ => rfl,
   (fun _ => 0), 0, false, rfl⟩

/-- C9: `php_rs_zend_string_release` is declared returning `void`, so its
signature has no channel through which an error could reach the caller:
any two implementations seen through the void return channel are
indistinguishable. -/
theorem c9_release_returns_void :
    releaseDecl.ret = CType.void ∧
    ∀ (r r' : ZendString → Unit), r = r' :=
  ⟨rfl, fun r r' => Subsingleton.elim r r'⟩

/-- C10: exactly `len` bytes of the buffer determine the string
`php_rs_zend_string_init` constructs — two buffers agreeing on their first
`len` bytes (regardless of any NUL terminator or embedded NUL bytes) give
equal strings, and the constructed string has length `len`. -/
theorem c10_length_determines_string (buf buf' : Nat → Nat) (len : Nat)
    (persistent : Bool) (h : ∀ i, i < len → buf i = buf' i) :
    php_rs_zend_string_init buf len persistent =
      php_rs_zend_string_init buf' len persistent ∧
    (php_rs_zend_string_init buf len persistent).bytes.length = len := by
  constructor
  · unfold php_rs_zend_string_init zend_string_init
    have hb : (List.range len).map buf = (List.range len).map buf' := by
      apply List.map_congr_left
      intro i hi
      exact h i (List.mem_range.mp hi)
    rw [hb]
  · simp [php_rs_zend_string_init, zend_string_init]

/-- Witness for C10 at a concrete input: a three-byte buffer with an
embedded NUL byte and no terminator, compared against a buffer that agrees
on the first three bytes and differs afterwards. -/
theorem c10_length_determines_string_witness :
    (∀ i, i < 3 →
      (fun j => List.getD [104, 0, 105] j 0) i =
      (fun j => List.getD [104, 0, 105, 42] j 7) i) ∧
    (php_rs_zend_string_init (fun j => List.getD [104, 0, 105] j 0) 3 true =
      php_rs_zend_string_init (fun j => List.getD [104, 0, 105, 42] j 7) 3 true ∧
    (php_rs_zend_string_init (fun j => List.getD [104, 0, 105] j 0) 3 true).bytes.length = 3) :=
  ⟨by decide,
   c10_length_determines_string (fun j => List.getD [104, 0, 105] j 0)
     (fun j => List.getD [104, 0, 105, 42] j 7) 3 true (by decide)⟩
